import Mathlib

/-!
Shallow embedding of the robotic-testing-backend ingestion/validation/fan-out
pipeline, translated from:
  app/core/config.py        (Settings)
  app/models/sensor.py      (SensorType, ValidationStatus, SensorReading, ...)
  app/services/validation.py (DataValidator)
  app/services/data_manager.py (DataManager)
  app/api/routes/sessions.py (start_session / stop_session guards)
Numeric values and timestamps are modelled as rationals; Python float
arithmetic is abstracted to exact rational arithmetic. Observers (WebSocket
connections) are modelled by natural-number identities, and a delivery
function stands in for the sink: delivery raising an exception in Python is
modelled by the function returning an error value that the broadcast loop
catches.
-/

namespace RoboticTesting

/-- Sensor type enumeration, from app/models/sensor.py SensorType. -/
inductive SensorType
  | force
  | motor
  | camera
  deriving DecidableEq, Repr

/-- Validation status enumeration, from app/models/sensor.py ValidationStatus. -/
inductive ValidationStatus
  | valid
  | warning
  | error
  deriving DecidableEq, Repr

/-- Camera payload: a dict with possibly-missing keys in the source
(validation.py reads it with dict.get and defaults), so the fields the
validator reads are modelled as optional. -/
structure CameraData where
  brightness : Option ℚ
  exposure : Option ℚ
  deriving DecidableEq, Repr

/-- Kind-dependent reading payload. In the source the typed pydantic models
(ForceReading, MotorReading, CameraReading) fix the value type per sensor
kind: float for FORCE and MOTOR, a camera-metadata dict for CAMERA. -/
inductive SensorValue
  | force (v : ℚ)
  | motor (v : ℚ)
  | camera (d : CameraData)
  deriving DecidableEq, Repr

/-- A sensor reading (app/models/sensor.py SensorReading): a timestamp plus a
kind-tagged value. -/
structure SensorReading where
  timestamp : ℚ
  value : SensorValue
  deriving DecidableEq, Repr

/-- The sensor_type field of a reading, determined by the payload variant. -/
def SensorReading.sensor_type (r : SensorReading) : SensorType :=
  match r.value with
  | .force _ => .force
  | .motor _ => .motor
  | .camera _ => .camera

/-- Configuration values read by the core (app/core/config.py Settings). -/
structure Settings where
  FORCE_THRESHOLD_HIGH : ℚ
  MOTOR_THRESHOLD : ℚ
  MAX_DATA_POINTS : ℕ
  deriving DecidableEq, Repr

/-- Default configuration values from config.py. -/
def defaultSettings : Settings :=
  { FORCE_THRESHOLD_HIGH := 80
    MOTOR_THRESHOLD := 55
    MAX_DATA_POINTS := 10000 }

/-- Abstraction of the alert message f-strings in validation.py: each distinct
message template is one constructor, carrying the interpolated values. -/
inductive AlertMessage
  | criticalForceLevel (actual threshold : ℚ)
  | forceApproachingLimit (actual : ℚ)
  | forceSpikeDetected
  | motorApproachingLimits (actual : ℚ)
  | lowLightingDetected (brightness : ℚ)
  | overexposedImage (brightness : ℚ)
  deriving DecidableEq, Repr

/-- The issue tag in the camera alert details dict. -/
inductive CameraIssue
  | insufficientLighting
  | overexposure
  deriving DecidableEq, Repr

/-- The details dict attached to each alert in validation.py, one constructor
per construction site. -/
inductive AlertDetails
  | forceCritical (threshold actual : ℚ)
  | forceApproaching (threshold actual percentage : ℚ)
  | forceSpike (recent_values : List ℚ)
  | motorLimit (threshold actual absolute : ℚ)
  | cameraIssue (brightness exposure : ℚ) (issue : CameraIssue)
  deriving DecidableEq, Repr

/-- Validation result (app/models/sensor.py ValidationResult). -/
structure ValidationResult where
  sensor_type : SensorType
  status : ValidationStatus
  message : AlertMessage
  timestamp : ℚ
  details : AlertDetails
  deriving DecidableEq, Repr

/-- One entry of the validator trend history: {timestamp, value}. -/
structure HistEntry where
  timestamp : ℚ
  value : ℚ
  deriving DecidableEq, Repr

/-- Validator state (validation.py DataValidator.validation_history), one list
per sensor kind. -/
structure DataValidator where
  force_history : List HistEntry
  motor_history : List HistEntry
  camera_history : List HistEntry
  deriving DecidableEq, Repr

/-- Fresh validator: every per-kind history starts empty. -/
def DataValidator.init : DataValidator :=
  { force_history := [], motor_history := [], camera_history := [] }

/-- validation.py DataValidator._detect_spike: spike iff at least 3 values and
the absolute change from first to last exceeds 50. -/
def detect_spike (values : List ℚ) : Bool :=
  if values.length < 3 then false
  else decide (|values.getLastD 0 - values.headD 0| > 50)

/-- The first two statements of _validate_force_reading acting on the FORCE
history: append the new {timestamp, value} entry, then keep only the last 50
entries. -/
def force_history_after (hist : List HistEntry) (force_value current_time : ℚ) :
    List HistEntry :=
  let h1 := hist ++ [{ timestamp := current_time, value := force_value }]
  if h1.length > 50 then h1.drop (h1.length - 50) else h1

/-- The recent_values slice read by the spike check: values of the last 3
history entries. -/
def recent_force_values (h : List HistEntry) : List ℚ :=
  (h.drop (h.length - 3)).map (·.value)

/-- validation.py DataValidator._validate_force_reading. Appends the value to
the FORCE history, caps the history at the last 50 entries, then checks the
critical threshold, the warning threshold, and spike detection in that order.
Returns the updated FORCE history together with the optional alert. The
current_time argument stands for time.time(). -/
def validate_force_reading (s : Settings) (hist : List HistEntry)
    (force_value current_time : ℚ) : List HistEntry × Option ValidationResult :=
  let h2 := force_history_after hist force_value current_time
  let res : Option ValidationResult :=
    if force_value > s.FORCE_THRESHOLD_HIGH then
      some
        { sensor_type := .force
          status := .error
          message := .criticalForceLevel force_value s.FORCE_THRESHOLD_HIGH
          timestamp := current_time
          details := .forceCritical s.FORCE_THRESHOLD_HIGH force_value }
    else if force_value > s.FORCE_THRESHOLD_HIGH * 0.8 then
      some
        { sensor_type := .force
          status := .warning
          message := .forceApproachingLimit force_value
          timestamp := current_time
          details := .forceApproaching s.FORCE_THRESHOLD_HIGH force_value
            (force_value / s.FORCE_THRESHOLD_HIGH * 100) }
    else if h2.length ≥ 3 then
      let recent_values := recent_force_values h2
      if detect_spike recent_values then
        some
          { sensor_type := .force
            status := .warning
            message := .forceSpikeDetected
            timestamp := current_time
            details := .forceSpike recent_values }
      else none
    else none
  (h2, res)

/-- validation.py DataValidator._validate_motor_reading: warn when the
absolute value exceeds MOTOR_THRESHOLD. -/
def validate_motor_reading (s : Settings) (motor_input current_time : ℚ) :
    Option ValidationResult :=
  let motor_value := |motor_input|
  if motor_value > s.MOTOR_THRESHOLD then
    some
      { sensor_type := .motor
        status := .warning
        message := .motorApproachingLimits motor_input
        timestamp := current_time
        details := .motorLimit s.MOTOR_THRESHOLD motor_input motor_value }
  else none

/-- validation.py DataValidator._validate_camera_reading: brightness defaults
to 128 when missing; below 30 warns about lighting, above 240 about
overexposure; the exposure detail defaults to 1.0 when missing. -/
def validate_camera_reading (d : CameraData) (current_time : ℚ) :
    Option ValidationResult :=
  let brightness := d.brightness.getD 128
  if brightness < 30 then
    some
      { sensor_type := .camera
        status := .warning
        message := .lowLightingDetected brightness
        timestamp := current_time
        details := .cameraIssue brightness (d.exposure.getD 1) .insufficientLighting }
  else if brightness > 240 then
    some
      { sensor_type := .camera
        status := .warning
        message := .overexposedImage brightness
        timestamp := current_time
        details := .cameraIssue brightness (d.exposure.getD 1) .overexposure }
  else none

/-- validation.py DataValidator.validate_reading: dispatch on the sensor type
and return the updated validator state together with the optional alert. Only
the FORCE branch touches the history. -/
def DataValidator.validate_reading (s : Settings) (st : DataValidator)
    (r : SensorReading) (current_time : ℚ) :
    DataValidator × Option ValidationResult :=
  match r.value with
  | .force v =>
      let (h, res) := validate_force_reading s st.force_history v current_time
      ({ st with force_history := h }, res)
  | .motor v => (st, validate_motor_reading s v current_time)
  | .camera d => (st, validate_camera_reading d current_time)

/-- System status snapshot (app/models/sensor.py SystemStatus). -/
structure SystemStatus where
  force_sensor : Bool
  motor_controller : Bool
  camera : Bool
  recording : Bool
  uptime_seconds : ℚ
  data_points_collected : ℕ
  deriving DecidableEq, Repr

/-- A message sent over a WebSocket, tagged by its type field as built in
data_manager.py ({type, data} dicts). -/
inductive WsMessage
  | sensor_data (data : SensorReading)
  | validation (data : ValidationResult)
  | system_status (data : SystemStatus)
  deriving DecidableEq, Repr

/-- An observer delivery function: send_text either succeeds or raises, which
is modelled as Except. Observers are identified by naturals. -/
def DeliverFn : Type := ℕ → Except Unit Unit

/-- Manager state (data_manager.py DataManager fields). -/
structure DataManager where
  sensor_data : List SensorReading
  validation_results : List ValidationResult
  websocket_connections : List ℕ
  recording : Bool
  session_start_time : Option ℚ
  validator : DataValidator
  deriving DecidableEq, Repr

/-- Fresh manager, as built by DataManager.__init__. -/
def DataManager.init : DataManager :=
  { sensor_data := []
    validation_results := []
    websocket_connections := []
    recording := false
    session_start_time := none
    validator := .init }

/-- The for-loop shared by _broadcast_sensor_data and _broadcast_message in
data_manager.py: try to send to each connection in order; a connection whose
send raises is skipped (bare except, pass) and left out of the rebuilt
active_connections list. Returns the active connections and the successful
deliveries in order. -/
def deliver_loop (deliver : DeliverFn) (msg : WsMessage) :
    List ℕ → List ℕ × List (ℕ × WsMessage)
  | [] => ([], [])
  | w :: rest =>
      match deliver w with
      | .ok _ =>
          let (act, sent) := deliver_loop deliver msg rest
          (w :: act, (w, msg) :: sent)
      | .error _ => deliver_loop deliver msg rest

/-- data_manager.py DataManager._broadcast_message: early return when there
are no connections, otherwise run the delivery loop and replace the
connection list with the surviving ones. -/
def broadcast_message (deliver : DeliverFn) (st : DataManager)
    (msg : WsMessage) : DataManager × List (ℕ × WsMessage) :=
  if st.websocket_connections.isEmpty then (st, [])
  else
    let (active, sent) := deliver_loop deliver msg st.websocket_connections
    ({ st with websocket_connections := active }, sent)

/-- data_manager.py DataManager._broadcast_sensor_data: same loop as
_broadcast_message (the source duplicates it verbatim), with the message
fixed to {type: sensor_data}. -/
def broadcast_sensor_data (deliver : DeliverFn) (st : DataManager)
    (reading : SensorReading) : DataManager × List (ℕ × WsMessage) :=
  if st.websocket_connections.isEmpty then (st, [])
  else
    let (active, sent) :=
      deliver_loop deliver (.sensor_data reading) st.websocket_connections
    ({ st with websocket_connections := active }, sent)

/-- data_manager.py DataManager._broadcast_validation. -/
def broadcast_validation (deliver : DeliverFn) (st : DataManager)
    (validation : ValidationResult) : DataManager × List (ℕ × WsMessage) :=
  broadcast_message deliver st (.validation validation)

/-- data_manager.py DataManager._broadcast_system_status: uptime is measured
from session_start_time (or 0 when unset). The now argument stands for the
event-loop clock. -/
def broadcast_system_status (deliver : DeliverFn) (st : DataManager)
    (now : ℚ) : DataManager × List (ℕ × WsMessage) :=
  broadcast_message deliver st (.system_status
    { force_sensor := true
      motor_controller := true
      camera := true
      recording := st.recording
      uptime_seconds := now - st.session_start_time.getD 0
      data_points_collected := st.sensor_data.length })

/-- The Python list slice lst[-n:]. For n = 0 it is lst[0:], the whole
list; for 0 < n it is the last n elements (all of them when n exceeds the
length). -/
def slice_last {α : Type} (l : List α) (n : ℕ) : List α :=
  if n = 0 then l else l.drop (l.length - n)

/-- The recording-guarded store step at the top of
DataManager.add_sensor_data: append the reading when recording and keep only
sensor_data[-MAX_DATA_POINTS:]. This is the accept operation of the Session
Store. Note the Python slice: with MAX_DATA_POINTS = 0 the slice [-0:] keeps
the entire list, so that configuration does not bound the buffer. -/
def accept_reading (s : Settings) (st : DataManager)
    (reading : SensorReading) : DataManager :=
  if st.recording then
    let d := st.sensor_data ++ [reading]
    { st with sensor_data :=
        if d.length > s.MAX_DATA_POINTS then slice_last d s.MAX_DATA_POINTS
        else d }
  else st

/-- data_manager.py DataManager.add_sensor_data: store if recording, always
validate (recording the alert and broadcasting it when produced), then always
broadcast the reading. The second component is the ordered trace of broadcast
calls made during this ingestion. -/
def add_sensor_data (s : Settings) (deliver : DeliverFn) (st : DataManager)
    (reading : SensorReading) (now : ℚ) : DataManager × List WsMessage :=
  let st1 := accept_reading s st reading
  let vres := st1.validator.validate_reading s reading now
  let st2 := { st1 with validator := vres.1 }
  match vres.2 with
  | some v =>
      let st3 := { st2 with validation_results := st2.validation_results ++ [v] }
      let st4 := (broadcast_validation deliver st3 v).1
      let st5 := (broadcast_sensor_data deliver st4 reading).1
      (st5, [.validation v, .sensor_data reading])
  | none =>
      let st4 := (broadcast_sensor_data deliver st2 reading).1
      (st4, [.sensor_data reading])

/-- data_manager.py DataManager.start_recording: set the flag, stamp the
session start, clear both buffers, broadcast the status. -/
def start_recording (deliver : DeliverFn) (st : DataManager) (now : ℚ) :
    DataManager :=
  let st1 := { st with recording := true
                       session_start_time := some now
                       sensor_data := []
                       validation_results := [] }
  (broadcast_system_status deliver st1 now).1

/-- Snapshot returned by DataManager.stop_recording. -/
structure StopSummary where
  total_readings : ℕ
  session_duration : Option ℚ
  validation_alerts : ℕ
  deriving DecidableEq, Repr

/-- data_manager.py DataManager.stop_recording: clear the flag, compute the
duration (the source tests `if self.session_start_time:`, so a start time of
0.0 is falsy in Python and yields no duration, like None), broadcast the
status, return the snapshot. Buffers are not cleared. -/
def stop_recording (deliver : DeliverFn) (st : DataManager) (now : ℚ) :
    DataManager × StopSummary :=
  let st1 := { st with recording := false }
  let session_duration :=
    match st1.session_start_time with
    | some t => if t = 0 then none else some (now - t)
    | none => none
  let st2 := (broadcast_system_status deliver st1 now).1
  (st2,
    { total_readings := st1.sensor_data.length
      session_duration := session_duration
      validation_alerts := st1.validation_results.length })

/-- data_manager.py DataManager.add_websocket_connection: unconditional
append (the source performs no membership check). -/
def add_websocket_connection (st : DataManager) (w : ℕ) : DataManager :=
  { st with websocket_connections := st.websocket_connections ++ [w] }

/-- data_manager.py DataManager.remove_websocket_connection: remove the first
occurrence when present, otherwise leave the state unchanged. -/
def remove_websocket_connection (st : DataManager) (w : ℕ) : DataManager :=
  if w ∈ st.websocket_connections then
    { st with websocket_connections := st.websocket_connections.erase w }
  else st

/-- Result of DataManager.get_data_summary: either the
{message: "No data recorded"} dict returned for an empty buffer, or the
statistics dict. The per-kind breakdown dict is modelled by its three counts
(the source dict simply omits kinds with count zero). -/
inductive DataSummary
  | noData
  | stats (total_readings force_count motor_count camera_count : ℕ)
      (validation_alerts : ℕ) (session_duration_seconds : Option ℚ)
      (recording_active : Bool) (connected_clients : ℕ)
  deriving DecidableEq, Repr

/-- Occurrences of one sensor kind in a reading list (the sensor_counts dict
built by get_data_summary). -/
def count_kind (l : List SensorReading) (k : SensorType) : ℕ :=
  (l.filter (fun rd => rd.sensor_type = k)).length

/-- data_manager.py DataManager.get_data_summary: message for an empty
buffer; otherwise total, per-kind counts, alert count, duration as
last.timestamp - first.timestamp when more than one reading (else None),
the recording flag and the client count. -/
def get_data_summary (st : DataManager) : DataSummary :=
  if st.sensor_data.isEmpty then .noData
  else
    let dflt : SensorReading := { timestamp := 0, value := .force 0 }
    .stats st.sensor_data.length
      (count_kind st.sensor_data .force)
      (count_kind st.sensor_data .motor)
      (count_kind st.sensor_data .camera)
      st.validation_results.length
      (if st.sensor_data.length > 1 then
        some ((st.sensor_data.getLastD dflt).timestamp
          - (st.sensor_data.headD dflt).timestamp)
      else none)
      st.recording
      st.websocket_connections.length

/-- Error raised by the session routes for a wrong recording state
(HTTP 400 in sessions.py). -/
inductive SessionError
  | invalidState
  deriving DecidableEq, Repr

/-- sessions.py start_session: reject with 400 when already recording
(before any mutation), otherwise run DataManager.start_recording. The state
is returned unchanged on the error path. -/
def start_session (deliver : DeliverFn) (st : DataManager) (now : ℚ) :
    DataManager × Except SessionError Unit :=
  if st.recording then (st, .error .invalidState)
  else (start_recording deliver st now, .ok ())

/-- sessions.py stop_session: reject with 400 when not recording (before any
mutation), otherwise run DataManager.stop_recording and return its
snapshot. -/
def stop_session (deliver : DeliverFn) (st : DataManager) (now : ℚ) :
    DataManager × Except SessionError StopSummary :=
  if st.recording then
    let (st2, summary) := stop_recording deliver st now
    (st2, .ok summary)
  else (st, .error .invalidState)

/-- Settings of the MAX_POINTS=3 scenario of claim C2. -/
def scenarioSettings : Settings :=
  { FORCE_THRESHOLD_HIGH := 80, MOTOR_THRESHOLD := 55, MAX_DATA_POINTS := 3 }

/-- Settings with a zero capacity, where the slice [-0:] keeps everything. -/
def zeroCapSettings : Settings :=
  { FORCE_THRESHOLD_HIGH := 80, MOTOR_THRESHOLD := 55, MAX_DATA_POINTS := 0 }

/-- A recording manager with empty buffers, as right after start_recording. -/
def recordingState : DataManager :=
  { DataManager.init with recording := true }

/-- A FORCE reading with the given timestamp and value 0. -/
def stamped (t : ℚ) : SensorReading :=
  { timestamp := t, value := .force 0 }

/-- A CAMERA reading with brightness 20 and timestamp 5. -/
def camReading20 : SensorReading :=
  { timestamp := 5
    value := .camera { brightness := some 20, exposure := none } }

/-- The alert the validator produces for camReading20 at time 5. -/
def camAlert20 : ValidationResult :=
  { sensor_type := .camera
    status := .warning
    message := .lowLightingDetected 20
    timestamp := 5
    details := .cameraIssue 20 1 .insufficientLighting }

/-- Whether delivery to an observer succeeds (send_text does not raise). -/
def deliver_ok (deliver : DeliverFn) (w : ℕ) : Bool :=
  match deliver w with
  | .ok _ => true
  | .error _ => false

/-- A sequence of Session Store accept steps (add_sensor_data restricted to
its storage effect), folded left over the incoming readings. -/
def accept_all (s : Settings) (st : DataManager) (rs : List SensorReading) :
    DataManager :=
  rs.foldl (accept_reading s) st

/-- A sequence of validate_reading calls threaded through the validator
state, as performed once per incoming reading. -/
def run_validate (s : Settings) (st : DataValidator) :
    List (SensorReading × ℚ) → DataValidator
  | [] => st
  | (r, t) :: rest => run_validate s (st.validate_reading s r t).1 rest

/-- A sequence of FORCE validations threaded through the FORCE history,
collecting the alert produced for each value in order. -/
def run_force_values (s : Settings) (hist : List HistEntry) :
    List ℚ → List (Option ValidationResult)
  | [] => []
  | v :: rest =>
      let step := validate_force_reading s hist v 0
      step.2 :: run_force_values s step.1 rest

/-- Claim C1: start_session while already recording fails with InvalidState
and leaves the manager state (in particular the readings and alerts buffers)
untouched; stop_session while not recording fails with InvalidState and
leaves the state untouched. -/
theorem C1_invalid_state_no_side_effects (deliver : DeliverFn)
    (st : DataManager) (now : ℚ) :
    (st.recording = true →
      start_session deliver st now = (st, .error .invalidState)) ∧
    (st.recording = false →
      stop_session deliver st now = (st, .error .invalidState)) := by
  constructor <;> intro h <;> simp [start_session, stop_session, h]

/-- Witness for C1 at a concrete recording state and a concrete idle state. -/
theorem C1_witness :
    ({ DataManager.init with recording := true } : DataManager).recording
        = true ∧
    start_session (fun _ => .ok ()) { DataManager.init with recording := true }
        0 = ({ DataManager.init with recording := true }, .error .invalidState) ∧
    DataManager.init.recording = false ∧
    stop_session (fun _ => .ok ()) DataManager.init 0
        = (DataManager.init, .error .invalidState) :=
  ⟨rfl,
   (C1_invalid_state_no_side_effects (fun _ => .ok ())
     { DataManager.init with recording := true } 0).1 rfl,
   rfl,
   (C1_invalid_state_no_side_effects (fun _ => .ok ()) DataManager.init 0).2 rfl⟩

/-- Counterexample to claim C4: registering an observer that is already
registered is not a no-op; add_websocket_connection appends unconditionally,
so the connection list [0] grows to [0, 0]. -/
theorem C4_counterexample :
    (add_websocket_connection
        { DataManager.init with websocket_connections := [0] } 0
      ≠ { DataManager.init with websocket_connections := [0] }) ∧
    (add_websocket_connection
        { DataManager.init with websocket_connections := [0] }
        0).websocket_connections = [0, 0] := by
  constructor
  · decide
  · rfl

/-- Claim C4 as amended: register always appends the observer to the
connection list, whether or not it is already present (a duplicate entry is
created in that case); unregister of an absent observer is a no-op leaving
the state unchanged. -/
theorem C4_register_unregister_amended (st : DataManager) (w : ℕ) :
    ((add_websocket_connection st w).websocket_connections
        = st.websocket_connections ++ [w]) ∧
    (w ∉ st.websocket_connections → remove_websocket_connection st w = st) := by
  refine ⟨rfl, fun h => ?_⟩
  simp [remove_websocket_connection, h]

/-- Witness for amended C4 at the empty connection list. -/
theorem C4_witness :
    (0 : ℕ) ∉ DataManager.init.websocket_connections ∧
    (add_websocket_connection DataManager.init 0).websocket_connections
        = DataManager.init.websocket_connections ++ [0] ∧
    remove_websocket_connection DataManager.init 0 = DataManager.init :=
  ⟨by decide, (C4_register_unregister_amended DataManager.init 0).1,
   (C4_register_unregister_amended DataManager.init 0).2 (by decide)⟩

/-- One accept step preserves a positive MAX_DATA_POINTS bound on the
buffer. -/
theorem accept_reading_length_le (s : Settings) (st : DataManager)
    (r : SensorReading) (hpos : 0 < s.MAX_DATA_POINTS)
    (h : st.sensor_data.length ≤ s.MAX_DATA_POINTS) :
    (accept_reading s st r).sensor_data.length ≤ s.MAX_DATA_POINTS := by
  unfold accept_reading slice_last
  split
  · simp only [List.length_append, List.length_cons, List.length_nil]
    split <;> rename_i hgt
    · rw [if_neg (by omega)]
      simp only [List.length_drop, List.length_append, List.length_cons,
        List.length_nil] at hgt ⊢
      omega
    · simp only [List.length_append, List.length_cons, List.length_nil]
        at hgt ⊢
      omega
  · exact h

/-- A positive bound is preserved by any sequence of accept steps. -/
theorem accept_all_length_le (s : Settings) (rs : List SensorReading)
    (st : DataManager) (hpos : 0 < s.MAX_DATA_POINTS)
    (h : st.sensor_data.length ≤ s.MAX_DATA_POINTS) :
    (accept_all s st rs).sensor_data.length ≤ s.MAX_DATA_POINTS := by
  induction rs generalizing st with
  | nil => exact h
  | cons r rest ih =>
      exact ih (accept_reading s st r)
        (accept_reading_length_le s st r hpos h)

/-- Counterexample to claim C2 as stated for every configuration: with
MAX_DATA_POINTS = 0, Python keeps sensor_data[-0:], the whole list, so one
accept while Recording leaves 1 reading stored, exceeding the bound 0. -/
theorem C2_counterexample :
    (accept_all zeroCapSettings recordingState [stamped 1]).sensor_data.length
      > zeroCapSettings.MAX_DATA_POINTS := by decide

/-- Claim C2 as amended: under a positive MAX_DATA_POINTS, the buffer never
exceeds MAX_DATA_POINTS over any accept sequence; a step at a full buffer
evicts exactly the oldest reading (FIFO); with MAX_DATA_POINTS = 3 and
recording on, accepting readings stamped 1, 2, 3, 4 leaves exactly the
readings stamped 2, 3, 4. (With MAX_DATA_POINTS = 0 the buffer is unbounded,
per the counterexample.) -/
theorem C2_bounded_fifo (s : Settings) (st : DataManager)
    (rs : List SensorReading) (r : SensorReading)
    (hpos : 0 < s.MAX_DATA_POINTS)
    (h : st.sensor_data.length ≤ s.MAX_DATA_POINTS) :
    ((accept_all s st rs).sensor_data.length ≤ s.MAX_DATA_POINTS) ∧
    (st.recording = true → st.sensor_data.length = s.MAX_DATA_POINTS →
      (accept_reading s st r).sensor_data = st.sensor_data.tail ++ [r]) ∧
    ((accept_all scenarioSettings recordingState
        [stamped 1, stamped 2, stamped 3, stamped 4]).sensor_data.map
        (·.timestamp) = [2, 3, 4]) := by
  refine ⟨accept_all_length_le s rs st hpos h, fun hrec hlen => ?_, by decide⟩
  unfold accept_reading slice_last
  rw [if_pos hrec]
  simp only [List.length_append, List.length_cons, List.length_nil, hlen]
  rw [if_pos (by omega), if_neg (by omega)]
  rw [show s.MAX_DATA_POINTS + 1 - s.MAX_DATA_POINTS = 1 by omega]
  cases hd : st.sensor_data with
  | nil => rw [hd] at hlen; simp at hlen; omega
  | cons a l => simp [hd]

/-- Witness for amended C2 at the default settings and a fresh manager. -/
theorem C2_witness :
    0 < defaultSettings.MAX_DATA_POINTS ∧
    DataManager.init.sensor_data.length ≤ defaultSettings.MAX_DATA_POINTS ∧
    (accept_all defaultSettings DataManager.init []).sensor_data.length
      ≤ defaultSettings.MAX_DATA_POINTS :=
  ⟨by decide, by decide,
   (C2_bounded_fifo defaultSettings DataManager.init []
     { timestamp := 1, value := .force 0 } (by decide) (by decide)).1⟩

/-- One validate_reading call never touches the MOTOR or CAMERA histories,
and keeps the FORCE history within 50 entries. -/
theorem validate_reading_history (s : Settings) (st : DataValidator)
    (r : SensorReading) (t : ℚ) :
    ((st.validate_reading s r t).1.motor_history = st.motor_history) ∧
    ((st.validate_reading s r t).1.camera_history = st.camera_history) ∧
    (st.force_history.length ≤ 50 →
      (st.validate_reading s r t).1.force_history.length ≤ 50) := by
  cases r with
  | mk ts v =>
      cases v with
      | force x =>
          refine ⟨rfl, rfl, fun h => ?_⟩
          show (force_history_after st.force_history x t).length ≤ 50
          unfold force_history_after
          simp only [List.length_append, List.length_cons, List.length_nil]
          split <;> rename_i hgt <;>
            simp only [List.length_drop, List.length_append, List.length_cons,
              List.length_nil] at hgt ⊢ <;> omega
      | motor x => exact ⟨rfl, rfl, fun h => h⟩
      | camera d => exact ⟨rfl, rfl, fun h => h⟩

/-- Claim C10: after any sequence of validate_reading calls on any mix of
readings, the MOTOR and CAMERA histories are still empty (only the FORCE
branch appends to a history) and the FORCE history holds at most 50
entries. -/
theorem C10_history_invariant (s : Settings)
    (inputs : List (SensorReading × ℚ)) :
    ((run_validate s .init inputs).motor_history = []) ∧
    ((run_validate s .init inputs).camera_history = []) ∧
    ((run_validate s .init inputs).force_history.length ≤ 50) := by
  suffices h : ∀ st : DataValidator, st.motor_history = [] →
      st.camera_history = [] → st.force_history.length ≤ 50 →
      ((run_validate s st inputs).motor_history = []) ∧
      ((run_validate s st inputs).camera_history = []) ∧
      ((run_validate s st inputs).force_history.length ≤ 50) by
    exact h .init rfl rfl (by decide)
  induction inputs with
  | nil => exact fun st hm hc hf => ⟨hm, hc, hf⟩
  | cons p rest ih =>
      intro st hm hc hf
      obtain ⟨h1, h2, h3⟩ := validate_reading_history s st p.1 p.2
      exact ih (st.validate_reading s p.1 p.2).1 (h1.trans hm) (h2.trans hc)
        (h3 hf)

/-- Arithmetic fact used to discharge the warning-band hypotheses at the
default threshold: 65 lies above 80 * 0.8 = 64. -/
theorem sixty_five_in_band : (65 : ℚ) > 80 * 0.8 := by norm_num

/-- Claim C3: a FORCE value above FORCE_THRESHOLD_HIGH yields an ERROR alert;
a value in the band (0.8 * threshold, threshold] yields a WARNING alert; at
the default threshold 80, the FORCE sequence 30, 65, 85 yields the alerts
none, WARNING, ERROR. -/
theorem C3_force_thresholds (s : Settings) (hist : List HistEntry) (v t : ℚ) :
    (v > s.FORCE_THRESHOLD_HIGH →
      (validate_force_reading s hist v t).2.map (·.status)
        = some .error) ∧
    (v > s.FORCE_THRESHOLD_HIGH * 0.8 → v ≤ s.FORCE_THRESHOLD_HIGH →
      (validate_force_reading s hist v t).2.map (·.status)
        = some .warning) ∧
    ((run_force_values defaultSettings [] [30, 65, 85]).map
        (Option.map (·.status))
      = [none, some .warning, some .error]) := by
  refine ⟨fun h1 => ?_, fun h1 h2 => ?_, ?_⟩
  · simp only [validate_force_reading]
    rw [if_pos h1]
    rfl
  · simp only [validate_force_reading]
    rw [if_neg (by exact fun hgt => absurd h2 (not_le.mpr hgt)), if_pos h1]
    rfl
  · norm_num [run_force_values, validate_force_reading, defaultSettings,
      force_history_after, recent_force_values, detect_spike]

/-- Witness for C3 at the default threshold with the values 85 and 65. -/
theorem C3_witness :
    ((85 : ℚ) > defaultSettings.FORCE_THRESHOLD_HIGH ∧
      (validate_force_reading defaultSettings [] 85 0).2.map (·.status)
        = some .error) ∧
    ((65 : ℚ) > defaultSettings.FORCE_THRESHOLD_HIGH * 0.8 ∧
      (65 : ℚ) ≤ defaultSettings.FORCE_THRESHOLD_HIGH ∧
      (validate_force_reading defaultSettings [] 65 0).2.map (·.status)
        = some .warning) :=
  ⟨⟨by decide, (C3_force_thresholds defaultSettings [] 85 0).1 (by decide)⟩,
   ⟨sixty_five_in_band, by decide,
    (C3_force_thresholds defaultSettings [] 65 0).2.1 sixty_five_in_band
      (by decide)⟩⟩

/-- Claim C7: a CAMERA reading with brightness below 30 warns about
insufficient lighting, one above 240 warns about overexposure, one in
[30, 240] produces no alert, and a reading with no brightness field defaults
to 128 and produces no alert. -/
theorem C7_camera_rules (d : CameraData) (t : ℚ) :
    (∀ b, d.brightness = some b → b < 30 →
      validate_camera_reading d t = some
        { sensor_type := .camera, status := .warning,
          message := .lowLightingDetected b, timestamp := t,
          details := .cameraIssue b (d.exposure.getD 1)
            .insufficientLighting }) ∧
    (∀ b, d.brightness = some b → b > 240 →
      validate_camera_reading d t = some
        { sensor_type := .camera, status := .warning,
          message := .overexposedImage b, timestamp := t,
          details := .cameraIssue b (d.exposure.getD 1) .overexposure }) ∧
    (∀ b, d.brightness = some b → 30 ≤ b → b ≤ 240 →
      validate_camera_reading d t = none) ∧
    (d.brightness = none → validate_camera_reading d t = none) := by
  refine ⟨fun b hb hlo => ?_, fun b hb hhi => ?_, fun b hb h1 h2 => ?_,
    fun hb => ?_⟩
  · simp only [validate_camera_reading, hb, Option.getD_some]
    rw [if_pos hlo]
  · simp only [validate_camera_reading, hb, Option.getD_some]
    rw [if_neg (by exact fun hlt => absurd hhi (by linarith)), if_pos hhi]
  · simp only [validate_camera_reading, hb, Option.getD_some]
    rw [if_neg (not_lt.mpr h1), if_neg (not_lt.mpr h2)]
  · simp only [validate_camera_reading, hb, Option.getD_none]
    norm_num

/-- Witness for C7 at brightness 20, 250, 128 and a missing brightness. -/
theorem C7_witness :
    (({ brightness := some 20, exposure := none } : CameraData).brightness
        = some 20 ∧ (20 : ℚ) < 30 ∧
      validate_camera_reading { brightness := some 20, exposure := none } 0
        = some
          { sensor_type := .camera, status := .warning,
            message := .lowLightingDetected 20, timestamp := 0,
            details := .cameraIssue 20 1 .insufficientLighting }) ∧
    ((250 : ℚ) > 240 ∧
      validate_camera_reading { brightness := some 250, exposure := none } 0
        = some
          { sensor_type := .camera, status := .warning,
            message := .overexposedImage 250, timestamp := 0,
            details := .cameraIssue 250 1 .overexposure }) ∧
    (validate_camera_reading { brightness := some 128, exposure := none } 0
        = none) ∧
    (validate_camera_reading { brightness := none, exposure := none } 0
        = none) :=
  ⟨⟨rfl, by decide,
    (C7_camera_rules { brightness := some 20, exposure := none } 0).1 20 rfl
      (by decide)⟩,
   ⟨by decide,
    (C7_camera_rules { brightness := some 250, exposure := none } 0).2.1 250
      rfl (by decide)⟩,
   (C7_camera_rules { brightness := some 128, exposure := none } 0).2.2.1 128
     rfl (by decide) (by decide),
   (C7_camera_rules { brightness := none, exposure := none } 0).2.2.2 rfl⟩

/-- Arithmetic fact for the C8 witness: 64 does not exceed 80 * 0.8. -/
theorem sixty_four_below_band : (64 : ℚ) ≤ 80 * 0.8 := by norm_num

/-- Arithmetic fact for the C8 witness: the last-3 window 10, 20, 64 spans
more than 50. -/
theorem spike_witness_diff :
    |(recent_force_values
        (force_history_after [⟨0, 10⟩, ⟨0, 20⟩] 64 0)).getLastD 0
      - (recent_force_values
        (force_history_after [⟨0, 10⟩, ⟨0, 20⟩] 64 0)).headD 0| > 50 := by
  have h : recent_force_values (force_history_after [⟨0, 10⟩, ⟨0, 20⟩] 64 0)
      = [10, 20, 64] := by decide
  rw [h]
  show |(64 : ℚ) - 10| > 50
  rw [show ((64 : ℚ) - 10) = 54 by norm_num,
    abs_of_nonneg (by norm_num : (0 : ℚ) ≤ 54)]
  norm_num

/-- Claim C8: for a FORCE value at or below 0.8 * FORCE_THRESHOLD_HIGH (with
a nonnegative configured threshold), an alert is produced exactly when the
post-append history has at least 3 entries and the last-3 window spans more
than 50; the alert is the WARNING "force spike detected" carrying the 3
recent values, and otherwise no alert is produced. -/
theorem C8_spike_detection (s : Settings) (hist : List HistEntry) (v t : ℚ)
    (hth : 0 ≤ s.FORCE_THRESHOLD_HIGH)
    (hv : v ≤ s.FORCE_THRESHOLD_HIGH * 0.8) :
    ((force_history_after hist v t).length ≥ 3 →
      |(recent_force_values (force_history_after hist v t)).getLastD 0
          - (recent_force_values (force_history_after hist v t)).headD 0|
        > 50 →
      (validate_force_reading s hist v t).2 = some
        { sensor_type := .force, status := .warning,
          message := .forceSpikeDetected, timestamp := t,
          details := .forceSpike
            (recent_force_values (force_history_after hist v t)) }) ∧
    ((force_history_after hist v t).length < 3 →
      (validate_force_reading s hist v t).2 = none) ∧
    (¬ (|(recent_force_values (force_history_after hist v t)).getLastD 0
          - (recent_force_values (force_history_after hist v t)).headD 0|
        > 50) →
      (validate_force_reading s hist v t).2 = none) := by
  have hle1 : ¬ (v > s.FORCE_THRESHOLD_HIGH) := not_lt.mpr (by linarith)
  have hle2 : ¬ (v > s.FORCE_THRESHOLD_HIGH * 0.8) := not_lt.mpr hv
  have hrl : (force_history_after hist v t).length ≥ 3 →
      (recent_force_values (force_history_after hist v t)).length = 3 := by
    intro hlen
    simp only [recent_force_values, List.length_map, List.length_drop]
    omega
  refine ⟨fun hlen hsp => ?_, fun hlen => ?_, fun hnsp => ?_⟩
  · simp only [validate_force_reading]
    rw [if_neg hle1, if_neg hle2, if_pos hlen, if_pos ?hsp]
    case hsp =>
      rw [detect_spike, if_neg (by rw [hrl hlen]; omega)]
      exact decide_eq_true hsp
  · simp only [validate_force_reading]
    rw [if_neg hle1, if_neg hle2, if_neg (by omega)]
  · by_cases hlen : (force_history_after hist v t).length ≥ 3
    · simp only [validate_force_reading]
      rw [if_neg hle1, if_neg hle2, if_pos hlen, if_neg ?hnsp]
      case hnsp =>
        rw [detect_spike, if_neg (by rw [hrl hlen]; omega)]
        exact fun hdec => hnsp (of_decide_eq_true hdec)
    · simp only [validate_force_reading]
      rw [if_neg hle1, if_neg hle2, if_neg hlen]

/-- Witness for C8: history 10, 20 followed by value 64 under the default
threshold triggers the spike warning. -/
theorem C8_witness :
    (0 : ℚ) ≤ defaultSettings.FORCE_THRESHOLD_HIGH ∧
    (64 : ℚ) ≤ defaultSettings.FORCE_THRESHOLD_HIGH * 0.8 ∧
    (force_history_after [⟨0, 10⟩, ⟨0, 20⟩] 64 0).length ≥ 3 ∧
    (validate_force_reading defaultSettings [⟨0, 10⟩, ⟨0, 20⟩] 64 0).2
      = some
        { sensor_type := .force, status := .warning,
          message := .forceSpikeDetected, timestamp := 0,
          details := .forceSpike
            (recent_force_values
              (force_history_after [⟨0, 10⟩, ⟨0, 20⟩] 64 0)) } :=
  ⟨by decide, sixty_four_below_band, by decide,
   (C8_spike_detection defaultSettings [⟨0, 10⟩, ⟨0, 20⟩] 64 0 (by decide)
       sixty_four_below_band).1 (by decide) spike_witness_diff⟩

/-- The delivery loop keeps exactly the observers whose delivery succeeds,
in order, and sends the message to exactly those observers. -/
theorem deliver_loop_eq (deliver : DeliverFn) (msg : WsMessage)
    (l : List ℕ) :
    deliver_loop deliver msg l
      = (l.filter (deliver_ok deliver),
         (l.filter (deliver_ok deliver)).map (fun w => (w, msg))) := by
  induction l with
  | nil => rfl
  | cons w rest ih =>
      rw [deliver_loop]
      cases hw : deliver w with
      | ok u =>
          rw [ih]
          simp [List.filter_cons, deliver_ok, hw]
      | error e =>
          rw [ih]
          simp [List.filter_cons, deliver_ok, hw]

/-- The _broadcast_message loop keeps exactly the observers whose delivery succeeds
and delivers to exactly those. -/
theorem broadcast_message_eq (deliver : DeliverFn) (st : DataManager)
    (msg : WsMessage) :
    broadcast_message deliver st msg
      = ({ st with websocket_connections :=
            st.websocket_connections.filter (deliver_ok deliver) },
         (st.websocket_connections.filter (deliver_ok deliver)).map
           (fun w => (w, msg))) := by
  unfold broadcast_message
  split
  · rename_i hempty
    rw [List.isEmpty_iff] at hempty
    rw [hempty]
    simp only [List.filter_nil, List.map_nil]
    rw [← hempty]
  · rw [deliver_loop_eq]

/-- The _broadcast_sensor_data loop keeps exactly the observers whose delivery
succeeds and delivers to exactly those. -/
theorem broadcast_sensor_data_eq (deliver : DeliverFn) (st : DataManager)
    (r : SensorReading) :
    broadcast_sensor_data deliver st r
      = ({ st with websocket_connections :=
            st.websocket_connections.filter (deliver_ok deliver) },
         (st.websocket_connections.filter (deliver_ok deliver)).map
           (fun w => (w, .sensor_data r))) := by
  unfold broadcast_sensor_data
  split
  · rename_i hempty
    rw [List.isEmpty_iff] at hempty
    rw [hempty]
    simp only [List.filter_nil, List.map_nil]
    rw [← hempty]
  · rw [deliver_loop_eq]

/-- Claim C5: during one broadcast (either _broadcast_message or
_broadcast_sensor_data), every observer whose delivery fails is removed from
the observer set within that call; every observer whose delivery succeeds
still receives the message, so one failure does not prevent the others; the
new observer set is exactly the survivors. The bare except in the source
catches every delivery error, so the broadcast itself returns normally,
which the embedding reflects by being a total function into a plain pair. -/
theorem C5_broadcast_drops_failed (deliver : DeliverFn) (st : DataManager)
    (msg : WsMessage) (r : SensorReading) :
    ((broadcast_message deliver st msg).1.websocket_connections
        = st.websocket_connections.filter (deliver_ok deliver)) ∧
    (∀ o ∈ st.websocket_connections, deliver_ok deliver o = false →
      o ∉ (broadcast_message deliver st msg).1.websocket_connections) ∧
    (∀ w ∈ st.websocket_connections, deliver_ok deliver w = true →
      (w, msg) ∈ (broadcast_message deliver st msg).2) ∧
    ((broadcast_sensor_data deliver st r).1.websocket_connections
        = st.websocket_connections.filter (deliver_ok deliver)) ∧
    (∀ o ∈ st.websocket_connections, deliver_ok deliver o = false →
      o ∉ (broadcast_sensor_data deliver st r).1.websocket_connections) ∧
    (∀ w ∈ st.websocket_connections, deliver_ok deliver w = true →
      (w, .sensor_data r) ∈ (broadcast_sensor_data deliver st r).2) := by
  rw [broadcast_message_eq, broadcast_sensor_data_eq]
  refine ⟨rfl, fun o ho hfail hmem => ?_, fun w hw hok => ?_, rfl,
    fun o ho hfail hmem => ?_, fun w hw hok => ?_⟩
  · rw [List.mem_filter] at hmem
    rw [hmem.2] at hfail
    exact Bool.noConfusion hfail
  · exact List.mem_map_of_mem _ (List.mem_filter.mpr ⟨hw, hok⟩)
  · rw [List.mem_filter] at hmem
    rw [hmem.2] at hfail
    exact Bool.noConfusion hfail
  · exact List.mem_map_of_mem _ (List.mem_filter.mpr ⟨hw, hok⟩)

/-- Witness for C5: observers 0 and 1 where delivery to 0 always fails;
after one broadcast, 0 is gone and 1 received the message. -/
theorem C5_witness :
    (0 : ℕ) ∈ ({ DataManager.init with
        websocket_connections := [0, 1] } : DataManager).websocket_connections ∧
    deliver_ok (fun n => if n = 0 then .error () else .ok ()) 0 = false ∧
    (1 : ℕ) ∈ ({ DataManager.init with
        websocket_connections := [0, 1] } : DataManager).websocket_connections ∧
    deliver_ok (fun n => if n = 0 then .error () else .ok ()) 1 = true ∧
    (0 : ℕ) ∉ (broadcast_message (fun n => if n = 0 then .error () else .ok ())
        { DataManager.init with websocket_connections := [0, 1] }
        (.sensor_data (stamped 1))).1.websocket_connections ∧
    ((1 : ℕ), WsMessage.sensor_data (stamped 1))
      ∈ (broadcast_message (fun n => if n = 0 then .error () else .ok ())
        { DataManager.init with websocket_connections := [0, 1] }
        (.sensor_data (stamped 1))).2 :=
  ⟨by decide, rfl, by decide, rfl,
   (C5_broadcast_drops_failed (fun n => if n = 0 then .error () else .ok ())
       { DataManager.init with websocket_connections := [0, 1] }
       (.sensor_data (stamped 1)) (stamped 1)).2.1 0 (by decide) rfl,
   (C5_broadcast_drops_failed (fun n => if n = 0 then .error () else .ok ())
       { DataManager.init with websocket_connections := [0, 1] }
       (.sensor_data (stamped 1)) (stamped 1)).2.2.1 1 (by decide) rfl⟩

/-- The accept step only touches the readings buffer: validator, alert
buffer, recording flag and observer set are unchanged. -/
theorem accept_reading_other_fields (s : Settings) (st : DataManager)
    (r : SensorReading) :
    ((accept_reading s st r).validator = st.validator) ∧
    ((accept_reading s st r).validation_results = st.validation_results) ∧
    ((accept_reading s st r).recording = st.recording) := by
  unfold accept_reading
  split <;> exact ⟨rfl, rfl, rfl⟩

/-- Claim C6: per incoming reading, add_sensor_data (1) performs the Session
Store accept step, persisting exactly when recording (the stored buffer is
the accept-step buffer, and is unchanged when not recording); (2) when
validation produces an alert, records it in validation_results and
broadcasts it as a validation message before (3) broadcasting the reading as
a sensor_data message, which happens unconditionally: the broadcast-call
trace is [validation alert, sensor_data reading] when an alert is produced
and [sensor_data reading] otherwise, always ending with the sensor_data
broadcast. -/
theorem C6_ingestion_order (s : Settings) (deliver : DeliverFn)
    (st : DataManager) (r : SensorReading) (now : ℚ) :
    ((add_sensor_data s deliver st r now).1.sensor_data
        = (accept_reading s st r).sensor_data) ∧
    (st.recording = false →
      (add_sensor_data s deliver st r now).1.sensor_data = st.sensor_data) ∧
    ((add_sensor_data s deliver st r now).2.getLast?
        = some (.sensor_data r)) ∧
    (∀ v, (st.validator.validate_reading s r now).2 = some v →
      (add_sensor_data s deliver st r now).2
          = [.validation v, .sensor_data r] ∧
      (add_sensor_data s deliver st r now).1.validation_results
          = st.validation_results ++ [v]) ∧
    ((st.validator.validate_reading s r now).2 = none →
      (add_sensor_data s deliver st r now).2 = [.sensor_data r] ∧
      (add_sensor_data s deliver st r now).1.validation_results
          = st.validation_results) := by
  obtain ⟨hval, hres, hrec⟩ := accept_reading_other_fields s st r
  have hmain :
      ((add_sensor_data s deliver st r now).1.sensor_data
        = (accept_reading s st r).sensor_data) ∧
      ((add_sensor_data s deliver st r now).1.validation_results
        = st.validation_results
          ++ (st.validator.validate_reading s r now).2.toList) ∧
      ((add_sensor_data s deliver st r now).2
        = ((st.validator.validate_reading s r now).2.map
            (fun v => WsMessage.validation v)).toList
            ++ [.sensor_data r]) := by
    cases hv : (st.validator.validate_reading s r now).2 with
    | some v =>
        simp only [add_sensor_data, hval, hv, broadcast_validation,
          broadcast_message_eq, broadcast_sensor_data_eq, hres,
          Option.toList_some, Option.map_some]
        simp
    | none =>
        simp only [add_sensor_data, hval, hv, broadcast_validation,
          broadcast_message_eq, broadcast_sensor_data_eq, hres,
          Option.toList_none, Option.map_none]
        simp
  obtain ⟨h1, h2, h3⟩ := hmain
  refine ⟨h1, fun hnorec => ?_, ?_, fun v hv => ?_, fun hv => ?_⟩
  · rw [h1]
    unfold accept_reading
    rw [if_neg (by rw [hnorec]; exact Bool.false_ne_true)]
  · rw [h3]
    cases (st.validator.validate_reading s r now).2 <;> simp
  · rw [h3, h2, hv]
    exact ⟨rfl, rfl⟩
  · rw [h3, h2, hv]
    exact ⟨rfl, by simp⟩

/-- Witness for C6: a camera reading with brightness 20 produces an alert,
one with brightness 128 does not; ingestion from a fresh manager shows the
recorded alert, the broadcast order and the unconditional sensor_data
broadcast. -/
theorem C6_witness :
    (DataManager.init.validator.validate_reading defaultSettings camReading20
        5).2 = some camAlert20 ∧
    (add_sensor_data defaultSettings (fun _ => .ok ()) DataManager.init
        camReading20 5).2
      = [.validation camAlert20, .sensor_data camReading20] ∧
    DataManager.init.recording = false ∧
    (add_sensor_data defaultSettings (fun _ => .ok ()) DataManager.init
        camReading20 5).1.sensor_data = DataManager.init.sensor_data :=
  ⟨by decide,
   ((C6_ingestion_order defaultSettings (fun _ => .ok ()) DataManager.init
       camReading20 5).2.2.2.1 camAlert20 (by decide)).1,
   rfl,
   (C6_ingestion_order defaultSettings (fun _ => .ok ()) DataManager.init
       camReading20 5).2.1 rfl⟩

/-- Counterexample to claim C9: on an empty readings buffer,
get_data_summary does not return counts, breakdown and span; it returns the
no-data message, so no stats form exists for the empty store. -/
theorem C9_counterexample :
    ¬ ∃ total fc mc cc alerts span rec clients,
      get_data_summary DataManager.init
        = .stats total fc mc cc alerts span rec clients := by
  rintro ⟨t, f, m, c, a, sp, rec, cl, h⟩
  have h0 : get_data_summary DataManager.init = .noData := rfl
  rw [h0] at h
  exact DataSummary.noConfusion h

/-- Claim C9 as amended: for every manager state with a nonempty readings
buffer, get_data_summary returns the total reading count, the per-kind
counts, the alert count, and a span equal to last.timestamp minus
first.timestamp when at least 2 readings are stored and null otherwise; for
an empty buffer it instead returns only a no-data message. -/
theorem C9_summary_amended (st : DataManager)
    (h : st.sensor_data ≠ []) :
    get_data_summary st
      = .stats st.sensor_data.length
          (count_kind st.sensor_data .force)
          (count_kind st.sensor_data .motor)
          (count_kind st.sensor_data .camera)
          st.validation_results.length
          (if 2 ≤ st.sensor_data.length then
            some ((st.sensor_data.getLastD { timestamp := 0, value := .force 0 }).timestamp
              - (st.sensor_data.headD { timestamp := 0, value := .force 0 }).timestamp)
          else none)
          st.recording
          st.websocket_connections.length := by
  unfold get_data_summary
  rw [if_neg (by rw [List.isEmpty_iff]; exact h)]
  have hiff : st.sensor_data.length > 1 ↔ 2 ≤ st.sensor_data.length := by omega
  simp only [hiff]

/-- Witness for C9 at a two-reading buffer with timestamps 1 and 3. -/
theorem C9_witness :
    ({ DataManager.init with
        sensor_data := [stamped 1, stamped 3] } : DataManager).sensor_data
      ≠ [] ∧
    get_data_summary { DataManager.init with
        sensor_data := [stamped 1, stamped 3] }
      = .stats 2 2 0 0 0
          (some ((stamped 3).timestamp - (stamped 1).timestamp)) false 0 :=
  ⟨by decide,
   C9_summary_amended
     { DataManager.init with sensor_data := [stamped 1, stamped 3] }
     (by decide)⟩

end RoboticTesting
